import Mathlib

/-!
Shallow embedding of the telemetry-lifecycle code of this repository:
`setupOTelSDK`, its `shutdown` closure and `handleErr` helper (otel.go),
and the `run` flow of main.go (signal / server-error race and deferred
telemetry teardown).

A Go `error` is modelled as the list of its underlying non-nil error
values: `[]` stands for `nil`, and `errors.Join` concatenates (dropping
nil operands, which are `[]` and vanish under append).  Side effects
(constructor calls, registry appends, global installs, teardown calls)
are made explicit as an event trace, and the mutable `shutdownFuncs`
slice captured by the `shutdown` closure is passed as explicit state.
-/

namespace OtelTutorial

/-- A Go `error` value: the list of underlying non-nil errors (atoms
numbered by `Nat`); `[]` is Go's `nil` error. -/
abbrev Err := List Nat

/-- `errors.Join`: joins two errors, dropping nil operands; in the list
model this is concatenation. -/
def errJoin (a b : Err) : Err := a ++ b

/-- The three provider kinds constructed by `setupOTelSDK` after the
propagator: tracer, meter, logger (otel.go lines 45-70). -/
inductive Kind
  | tracer
  | meter
  | logger
deriving DecidableEq, Repr

/-- `propagation.TextMapPropagator` values that appear in the code:
`TraceContext{}`, `Baggage{}`, and composites built by
`propagation.NewCompositeTextMapPropagator`. -/
inductive TextMapPropagator
  | traceContext
  | baggage
  | composite (ps : List TextMapPropagator)

/-- `newPropagator` (otel.go lines 75-80): the composite of
`TraceContext{}` and `Baggage{}`. -/
def newPropagator : TextMapPropagator :=
  .composite [.traceContext, .baggage]

/-- Observable steps of `setupOTelSDK` and of the teardown callbacks it
registers. -/
inductive Event
  | mkPropagator                 -- `prop := newPropagator()`
  | setTextMapPropagator         -- `otel.SetTextMapPropagator(prop)`
  | ctorCall (k : Kind)          -- `newTracerProvider()` etc. is invoked
  | registerTeardown (k : Kind)  -- `shutdownFuncs = append(shutdownFuncs, ...Shutdown)`
  | installProvider (k : Kind)   -- `otel.SetTracerProvider` / `otel.SetMeterProvider` / `global.SetLoggerProvider`
  | teardownCall (k : Kind)      -- the provider's `Shutdown(ctx)` is invoked
deriving DecidableEq, Repr

/-- A registered teardown callback (`func(context.Context) error`): the
provider's `Shutdown` method, identified by its provider kind and by the
error it returns when invoked. -/
structure Callback where
  kind : Kind
  err : Err
deriving DecidableEq, Repr

/-- Result of one invocation of the `shutdown` closure: the joined
error it returns, the teardown calls it performed, and the value the
captured `shutdownFuncs` slice holds afterwards (`nil`). -/
structure ShutdownRun where
  err : Err
  events : List Event
  registry : List Callback
deriving DecidableEq, Repr

/-- The `shutdown` closure of `setupOTelSDK` (otel.go lines 27-34):
calls each registered cleanup function in order, joins the errors, then
sets `shutdownFuncs = nil`. -/
def shutdown (shutdownFuncs : List Callback) : ShutdownRun :=
  let folded := shutdownFuncs.foldl
    (fun (acc : Err × List Event) fn =>
      (errJoin acc.1 fn.err, acc.2 ++ [Event.teardownCall fn.kind]))
    ([], [])
  ⟨folded.1, folded.2, []⟩

/-- `handleErr` (otel.go lines 37-39): `err = errors.Join(inErr,
shutdown(ctx))`; returns the joined error, the teardown events, and the
emptied registry. -/
def handleErr (shutdownFuncs : List Callback) (inErr : Err) :
    Err × List Event × List Callback :=
  let s := shutdown shutdownFuncs
  (errJoin inErr s.err, s.events, s.registry)

/-- Outcome of one call to `newTracerProvider` / `newMeterProvider` /
`newLoggerProvider`: the returned error (`[]` = nil = success) and, on
success, the error the constructed provider's `Shutdown` returns when
later invoked.  These constructors delegate to external SDK exporters,
so their outcomes are parameters of the model. -/
structure CtorResult where
  err : Err
  tdErr : Err
deriving DecidableEq, Repr

/-- The outcomes of the three provider constructors for one run of
`setupOTelSDK`. -/
structure Ctors where
  newTracerProvider : CtorResult
  newMeterProvider : CtorResult
  newLoggerProvider : CtorResult
deriving DecidableEq, Repr

/-- Process-wide defaults mutated by `setupOTelSDK`: the text-map
propagator (`otel.SetTextMapPropagator`) and whether each SDK provider
has been installed as the default of its kind. -/
structure Globals where
  textMapPropagator : Option TextMapPropagator
  tracerProviderSet : Bool
  meterProviderSet : Bool
  loggerProviderSet : Bool

/-- Result of `setupOTelSDK`: the value of the `shutdownFuncs` slice
captured by the returned `shutdown` closure, the returned error, the
event trace, and the final process-wide defaults. -/
structure SetupOutcome where
  registry : List Callback
  err : Err
  events : List Event
  globals : Globals

/-- `setupOTelSDK` (otel.go lines 41-72): installs the composite
propagator, then constructs tracer, meter and logger providers in
order; after each success appends the provider's `Shutdown` to
`shutdownFuncs` and installs the provider as the process-wide default;
on the first failure calls `handleErr` and returns. -/
def setupOTelSDK (c : Ctors) : SetupOutcome :=
  let shutdownFuncs : List Callback := []
  -- プロパゲーターのセットアップ。
  let g : Globals := ⟨some newPropagator, false, false, false⟩
  let evs : List Event := [Event.mkPropagator, Event.setTextMapPropagator]
  -- トレースプロバイダーのセットアップ。
  let evs := evs ++ [Event.ctorCall .tracer]
  if c.newTracerProvider.err = [] then
    let shutdownFuncs := shutdownFuncs ++ [⟨Kind.tracer, c.newTracerProvider.tdErr⟩]
    let g : Globals := ⟨g.textMapPropagator, true, g.meterProviderSet, g.loggerProviderSet⟩
    let evs := evs ++ [Event.registerTeardown .tracer, Event.installProvider .tracer]
    -- メータープロバイダーのセットアップ。
    let evs := evs ++ [Event.ctorCall .meter]
    if c.newMeterProvider.err = [] then
      let shutdownFuncs := shutdownFuncs ++ [⟨Kind.meter, c.newMeterProvider.tdErr⟩]
      let g : Globals := ⟨g.textMapPropagator, g.tracerProviderSet, true, g.loggerProviderSet⟩
      let evs := evs ++ [Event.registerTeardown .meter, Event.installProvider .meter]
      -- ロガープロバイダーのセットアップ。
      let evs := evs ++ [Event.ctorCall .logger]
      if c.newLoggerProvider.err = [] then
        let shutdownFuncs := shutdownFuncs ++ [⟨Kind.logger, c.newLoggerProvider.tdErr⟩]
        let g : Globals := ⟨g.textMapPropagator, g.tracerProviderSet, g.meterProviderSet, true⟩
        let evs := evs ++ [Event.registerTeardown .logger, Event.installProvider .logger]
        ⟨shutdownFuncs, [], evs, g⟩
      else
        let r := handleErr shutdownFuncs c.newLoggerProvider.err
        ⟨r.2.2, r.1, evs ++ r.2.1, g⟩
    else
      let r := handleErr shutdownFuncs c.newMeterProvider.err
      ⟨r.2.2, r.1, evs ++ r.2.1, g⟩
  else
    let r := handleErr shutdownFuncs c.newTracerProvider.err
    ⟨r.2.2, r.1, evs ++ r.2.1, g⟩

/-- The constructor outcome of a given provider kind. -/
def ctorOf (c : Ctors) : Kind → CtorResult
  | .tracer => c.newTracerProvider
  | .meter => c.newMeterProvider
  | .logger => c.newLoggerProvider

/-- The provider kinds constructed before a given one in
`setupOTelSDK`'s fixed construction sequence. -/
def priorKinds : Kind → List Kind
  | .tracer => []
  | .meter => [.tracer]
  | .logger => [.tracer, .meter]

/-- Go `context.Context` values as built by the constructors used in
main.go: `context.Background()`, a cancellable child (as produced by
`signal.NotifyContext`), or a deadline-carrying child (as
`context.WithDeadline` / `context.WithTimeout` would produce; main.go
never builds one). -/
inductive GoCtx
  | background
  | withCancel (parent : GoCtx)
  | withDeadline (parent : GoCtx) (deadline : Nat)
deriving DecidableEq, Repr

/-- Whether a context carries a deadline (Go's `ctx.Deadline()` second
return): `Background` has none, cancellation does not add one, and only
`WithDeadline` ancestors contribute one. -/
def GoCtx.hasDeadline : GoCtx → Bool
  | .background => false
  | .withCancel p => p.hasDeadline
  | .withDeadline _ _ => true

/-- Which case of the `select` in `run` (main.go lines 103-113) fires
first: the buffered `srvErr` channel delivering `ListenAndServe`'s
result, or `ctx.Done()` after the first interrupt signal.  The race
outcome is scheduler-dependent, so it is a parameter of the model. -/
inductive RaceWinner
  | serverError (e : Err)
  | interrupt
deriving DecidableEq, Repr

/-- Observable steps of `run` (main.go). -/
inductive RunEvent
  | setupCall                    -- `setupOTelSDK(ctx)`
  | listenAndServe               -- the goroutine calls `srv.ListenAndServe()`
  | recvServerError              -- the `case err = <-srvErr` branch fires
  | stopSignals                  -- `stop()` inside the `ctx.Done()` branch
  | srvShutdownCall (ctx : GoCtx)   -- `srv.Shutdown(...)` with the given context
  | otelShutdownCall (ctx : GoCtx)  -- deferred `otelShutdown(...)` with the given context
deriving DecidableEq, Repr

/-- Result of `run`: its returned error (after the deferred join with
the telemetry shutdown), its event trace, and the teardown events the
telemetry shutdown performed. -/
structure RunOutcome where
  err : Err
  events : List RunEvent
  otelEvents : List Event
deriving DecidableEq, Repr

/-- `run` (main.go lines 76-117): sets up telemetry (returning its
error directly if setup fails, before the deferred join is installed);
on success defers `err = errors.Join(err, otelShutdown(context.Background()))`,
starts the server goroutine, races `srvErr` against `ctx.Done()`; the
server-error case returns that error, the interrupt case calls `stop()`
and then `err = srv.Shutdown(context.Background())`.  Parameters: the
provider-constructor outcomes, the race winner, and the error
`srv.Shutdown` returns when invoked. -/
def run (c : Ctors) (w : RaceWinner) (srvShutdownErr : Err) : RunOutcome :=
  let o := setupOTelSDK c
  if o.err = [] then
    match w with
    | .serverError e =>
      let s := shutdown o.registry
      ⟨errJoin e s.err,
       [.setupCall, .listenAndServe, .recvServerError,
        .otelShutdownCall .background],
       s.events⟩
    | .interrupt =>
      let s := shutdown o.registry
      ⟨errJoin srvShutdownErr s.err,
       [.setupCall, .listenAndServe, .stopSignals,
        .srvShutdownCall .background, .otelShutdownCall .background],
       s.events⟩
  else
    ⟨o.err, [.setupCall], []⟩

/-- Constructor outcomes where all three providers are built
successfully and each provider's `Shutdown` returns a distinct non-nil
error. -/
def ctorsAllOk : Ctors :=
  ⟨⟨[], [1]⟩, ⟨[], [2]⟩, ⟨[], [3]⟩⟩

/-- Constructor outcomes where the tracer provider is built (its
`Shutdown` failing with error atom 1) and the meter-provider
constructor fails with error atom 20. -/
def ctorsMeterFails : Ctors :=
  ⟨⟨[], [1]⟩, ⟨[20], []⟩, ⟨[], [3]⟩⟩

/-! Structural lemmas: the value of `setupOTelSDK` on each of its four
control paths. -/

/-- If the tracer-provider constructor fails, `setupOTelSDK` returns its
error with an empty registry, having called no teardown. -/
theorem setup_eq_of_tracer_fail (c : Ctors)
    (hT : c.newTracerProvider.err ≠ []) :
    setupOTelSDK c =
      ⟨[], c.newTracerProvider.err,
       [.mkPropagator, .setTextMapPropagator, .ctorCall .tracer],
       ⟨some newPropagator, false, false, false⟩⟩ := by
  obtain ⟨⟨te, tt⟩, ⟨me, mt⟩, ⟨le, lt⟩⟩ := c
  simp only [setupOTelSDK, handleErr, shutdown, errJoin] at *
  simp [hT]

/-- If the tracer provider is built but the meter-provider constructor
fails, `setupOTelSDK` tears down the tracer and returns the meter error
joined with the tracer teardown error, with an empty registry. -/
theorem setup_eq_of_meter_fail (c : Ctors)
    (hT : c.newTracerProvider.err = []) (hM : c.newMeterProvider.err ≠ []) :
    setupOTelSDK c =
      ⟨[], c.newMeterProvider.err ++ c.newTracerProvider.tdErr,
       [.mkPropagator, .setTextMapPropagator, .ctorCall .tracer,
        .registerTeardown .tracer, .installProvider .tracer,
        .ctorCall .meter, .teardownCall .tracer],
       ⟨some newPropagator, true, false, false⟩⟩ := by
  obtain ⟨⟨te, tt⟩, ⟨me, mt⟩, ⟨le, lt⟩⟩ := c
  simp only [setupOTelSDK, handleErr, shutdown, errJoin] at *
  simp [hT, hM]

/-- If tracer and meter providers are built but the logger-provider
constructor fails, `setupOTelSDK` tears down tracer then meter and
returns the logger error joined with their teardown errors, with an
empty registry. -/
theorem setup_eq_of_logger_fail (c : Ctors)
    (hT : c.newTracerProvider.err = []) (hM : c.newMeterProvider.err = [])
    (hL : c.newLoggerProvider.err ≠ []) :
    setupOTelSDK c =
      ⟨[], c.newLoggerProvider.err ++
           (c.newTracerProvider.tdErr ++ c.newMeterProvider.tdErr),
       [.mkPropagator, .setTextMapPropagator, .ctorCall .tracer,
        .registerTeardown .tracer, .installProvider .tracer,
        .ctorCall .meter, .registerTeardown .meter, .installProvider .meter,
        .ctorCall .logger, .teardownCall .tracer, .teardownCall .meter],
       ⟨some newPropagator, true, true, false⟩⟩ := by
  obtain ⟨⟨te, tt⟩, ⟨me, mt⟩, ⟨le, lt⟩⟩ := c
  simp only [setupOTelSDK, handleErr, shutdown, errJoin] at *
  simp [hT, hM, hL]

/-- If all three provider constructors succeed, `setupOTelSDK` returns
a nil error, the three teardown callbacks in registration order, and no
teardown has been called. -/
theorem setup_eq_of_all_ok (c : Ctors)
    (hT : c.newTracerProvider.err = []) (hM : c.newMeterProvider.err = [])
    (hL : c.newLoggerProvider.err = []) :
    setupOTelSDK c =
      ⟨[⟨.tracer, c.newTracerProvider.tdErr⟩,
        ⟨.meter, c.newMeterProvider.tdErr⟩,
        ⟨.logger, c.newLoggerProvider.tdErr⟩], [],
       [.mkPropagator, .setTextMapPropagator, .ctorCall .tracer,
        .registerTeardown .tracer, .installProvider .tracer,
        .ctorCall .meter, .registerTeardown .meter, .installProvider .meter,
        .ctorCall .logger, .registerTeardown .logger, .installProvider .logger],
       ⟨some newPropagator, true, true, true⟩⟩ := by
  obtain ⟨⟨te, tt⟩, ⟨me, mt⟩, ⟨le, lt⟩⟩ := c
  simp only [setupOTelSDK, handleErr, shutdown, errJoin] at *
  simp [hT, hM, hL]

/-- C1: For every provider position i in the construction sequence
(tracer, meter, logger), if the constructor for provider i fails inside
setupOTelSDK, then the teardown callback of each provider constructed
before i is invoked exactly once before setupOTelSDK returns, and the
error returned by setupOTelSDK is the join of the construction error of
provider i with any errors returned by those teardown invocations. -/
theorem C1_partial_failure_cleanup (c : Ctors) (i : Kind)
    (hprev : ∀ k ∈ priorKinds i, (ctorOf c k).err = [])
    (hfail : (ctorOf c i).err ≠ []) :
    (∀ k ∈ priorKinds i,
        (setupOTelSDK c).events.count (Event.teardownCall k) = 1) ∧
    (setupOTelSDK c).err =
      errJoin (ctorOf c i).err
        ((priorKinds i).foldl (fun a k => errJoin a (ctorOf c k).tdErr) []) := by
  cases i with
  | tracer =>
    rw [setup_eq_of_tracer_fail c hfail]
    simp [priorKinds, ctorOf, errJoin] at *
  | meter =>
    have hT : c.newTracerProvider.err = [] := hprev .tracer (by simp [priorKinds])
    rw [setup_eq_of_meter_fail c hT hfail]
    constructor
    · intro k hk
      simp [priorKinds] at hk
      subst hk
      rfl
    · simp [priorKinds, ctorOf, errJoin]
  | logger =>
    have hT : c.newTracerProvider.err = [] := hprev .tracer (by simp [priorKinds])
    have hM : c.newMeterProvider.err = [] := hprev .meter (by simp [priorKinds])
    rw [setup_eq_of_logger_fail c hT hM hfail]
    constructor
    · intro k hk
      simp [priorKinds] at hk
      rcases hk with hk | hk <;> subst hk <;> rfl
    · simp [priorKinds, ctorOf, errJoin]

/-- C1 witness: instantiated at constructor outcomes where the meter
provider fails. -/
theorem C1_partial_failure_cleanup_witness :
    (∀ k ∈ priorKinds .meter, (ctorOf ctorsMeterFails k).err = []) ∧
    (ctorOf ctorsMeterFails .meter).err ≠ [] ∧
    ((∀ k ∈ priorKinds .meter,
        (setupOTelSDK ctorsMeterFails).events.count (Event.teardownCall k) = 1) ∧
     (setupOTelSDK ctorsMeterFails).err =
       errJoin (ctorOf ctorsMeterFails .meter).err
         ((priorKinds .meter).foldl
           (fun a k => errJoin a (ctorOf ctorsMeterFails k).tdErr) [])) :=
  ⟨by decide, by decide,
   C1_partial_failure_cleanup ctorsMeterFails .meter (by decide) (by decide)⟩

/-- C2: The shutdown function returned by a successful setupOTelSDK is
idempotent: after one invocation, a second invocation calls no teardown
callback (the registry has been cleared) and returns a nil error,
regardless of what the first invocation returned. -/
theorem C2_shutdown_idempotent (c : Ctors)
    (h : (setupOTelSDK c).err = []) :
    (shutdown (shutdown (setupOTelSDK c).registry).registry).events = [] ∧
    (shutdown (shutdown (setupOTelSDK c).registry).registry).err = [] := by
  constructor <;> rfl

/-- C2 witness: instantiated at all-successful constructor outcomes. -/
theorem C2_shutdown_idempotent_witness :
    (setupOTelSDK ctorsAllOk).err = [] ∧
    ((shutdown (shutdown (setupOTelSDK ctorsAllOk).registry).registry).events = [] ∧
     (shutdown (shutdown (setupOTelSDK ctorsAllOk).registry).registry).err = []) :=
  ⟨by decide, C2_shutdown_idempotent ctorsAllOk (by decide)⟩

/-- C3: When the shutdown function returned by setupOTelSDK is invoked,
the registered teardown callbacks are invoked in exactly forward
registration order — tracer provider teardown first, then meter
provider teardown, then logger provider teardown — never in reverse
order. -/
theorem C3_forward_teardown_order (c : Ctors)
    (hT : c.newTracerProvider.err = []) (hM : c.newMeterProvider.err = [])
    (hL : c.newLoggerProvider.err = []) :
    (shutdown (setupOTelSDK c).registry).events =
      [Event.teardownCall .tracer, Event.teardownCall .meter,
       Event.teardownCall .logger] := by
  rw [setup_eq_of_all_ok c hT hM hL]
  rfl

/-- C3 witness: instantiated at all-successful constructor outcomes. -/
theorem C3_forward_teardown_order_witness :
    ctorsAllOk.newTracerProvider.err = [] ∧
    ctorsAllOk.newMeterProvider.err = [] ∧
    ctorsAllOk.newLoggerProvider.err = [] ∧
    (shutdown (setupOTelSDK ctorsAllOk).registry).events =
      [Event.teardownCall .tracer, Event.teardownCall .meter,
       Event.teardownCall .logger] :=
  ⟨rfl, rfl, rfl,
   C3_forward_teardown_order ctorsAllOk rfl rfl rfl⟩

/-- C4: If two distinct registered teardown callbacks each return a
non-nil error when the combined shutdown function runs, the single
error value returned by the shutdown function contains both underlying
errors; neither error masks or drops the other. -/
theorem C4_joined_error_keeps_both (c : Ctors)
    (hT : c.newTracerProvider.err = []) (hM : c.newMeterProvider.err = [])
    (hL : c.newLoggerProvider.err = [])
    (k1 k2 : Kind) (hne : k1 ≠ k2)
    (h1 : (ctorOf c k1).tdErr ≠ []) (h2 : (ctorOf c k2).tdErr ≠ []) :
    (∀ x ∈ (ctorOf c k1).tdErr, x ∈ (shutdown (setupOTelSDK c).registry).err) ∧
    (∀ x ∈ (ctorOf c k2).tdErr, x ∈ (shutdown (setupOTelSDK c).registry).err) := by
  rw [setup_eq_of_all_ok c hT hM hL]
  cases k1 <;> cases k2 <;>
    simp_all [shutdown, errJoin, ctorOf, List.mem_append]

/-- C4 witness: instantiated at all-successful constructor outcomes
whose tracer and meter teardowns fail with distinct errors. -/
theorem C4_joined_error_keeps_both_witness :
    ctorsAllOk.newTracerProvider.err = [] ∧
    ctorsAllOk.newMeterProvider.err = [] ∧
    ctorsAllOk.newLoggerProvider.err = [] ∧
    Kind.tracer ≠ Kind.meter ∧
    (ctorOf ctorsAllOk .tracer).tdErr ≠ [] ∧
    (ctorOf ctorsAllOk .meter).tdErr ≠ [] ∧
    ((∀ x ∈ (ctorOf ctorsAllOk .tracer).tdErr,
        x ∈ (shutdown (setupOTelSDK ctorsAllOk).registry).err) ∧
     (∀ x ∈ (ctorOf ctorsAllOk .meter).tdErr,
        x ∈ (shutdown (setupOTelSDK ctorsAllOk).registry).err)) :=
  ⟨rfl, rfl, rfl, by decide, by decide, by decide,
   C4_joined_error_keeps_both ctorsAllOk rfl rfl rfl .tracer .meter
     (by decide) (by decide) (by decide)⟩

/-- C5: If the meter provider constructor fails during setupOTelSDK,
then the tracer provider's teardown callback is invoked exactly once,
setupOTelSDK returns an error containing the meter construction error,
and the logger provider constructor is never invoked. -/
theorem C5_meter_failure_scenario (c : Ctors)
    (hT : c.newTracerProvider.err = []) (hM : c.newMeterProvider.err ≠ []) :
    (setupOTelSDK c).events.count (Event.teardownCall .tracer) = 1 ∧
    (∀ x ∈ c.newMeterProvider.err, x ∈ (setupOTelSDK c).err) ∧
    (setupOTelSDK c).events.count (Event.ctorCall .logger) = 0 := by
  rw [setup_eq_of_meter_fail c hT hM]
  refine ⟨rfl, ?_, rfl⟩
  intro x hx
  simp [List.mem_append, hx]

/-- C5 witness: instantiated at constructor outcomes where the meter
provider fails. -/
theorem C5_meter_failure_scenario_witness :
    ctorsMeterFails.newTracerProvider.err = [] ∧
    ctorsMeterFails.newMeterProvider.err ≠ [] ∧
    ((setupOTelSDK ctorsMeterFails).events.count (Event.teardownCall .tracer) = 1 ∧
     (∀ x ∈ ctorsMeterFails.newMeterProvider.err,
        x ∈ (setupOTelSDK ctorsMeterFails).err) ∧
     (setupOTelSDK ctorsMeterFails).events.count (Event.ctorCall .logger) = 0) :=
  ⟨rfl, by decide,
   C5_meter_failure_scenario ctorsMeterFails rfl (by decide)⟩

/-- C6: On any construction failure inside setupOTelSDK, the function
returns a non-nil combined error together with a shutdown function
that, when subsequently invoked, performs no teardown work and returns
a nil error (a behavioral no-op). -/
theorem C6_failure_returns_noop_shutdown (c : Ctors)
    (h : ¬ (c.newTracerProvider.err = [] ∧ c.newMeterProvider.err = [] ∧
            c.newLoggerProvider.err = [])) :
    (setupOTelSDK c).err ≠ [] ∧
    (shutdown (setupOTelSDK c).registry).events = [] ∧
    (shutdown (setupOTelSDK c).registry).err = [] := by
  by_cases hT : c.newTracerProvider.err = []
  · by_cases hM : c.newMeterProvider.err = []
    · by_cases hL : c.newLoggerProvider.err = []
      · exact absurd ⟨hT, hM, hL⟩ h
      · rw [setup_eq_of_logger_fail c hT hM hL]
        exact ⟨by simp [hL], rfl, rfl⟩
    · rw [setup_eq_of_meter_fail c hT hM]
      exact ⟨by simp [hM], rfl, rfl⟩
  · rw [setup_eq_of_tracer_fail c hT]
    exact ⟨hT, rfl, rfl⟩

/-- C6 witness: instantiated at constructor outcomes where the meter
provider fails. -/
theorem C6_failure_returns_noop_shutdown_witness :
    ¬ (ctorsMeterFails.newTracerProvider.err = [] ∧
       ctorsMeterFails.newMeterProvider.err = [] ∧
       ctorsMeterFails.newLoggerProvider.err = []) ∧
    ((setupOTelSDK ctorsMeterFails).err ≠ [] ∧
     (shutdown (setupOTelSDK ctorsMeterFails).registry).events = [] ∧
     (shutdown (setupOTelSDK ctorsMeterFails).registry).err = []) :=
  ⟨by decide, C6_failure_returns_noop_shutdown ctorsMeterFails (by decide)⟩

/-- C7: setupOTelSDK constructs components strictly in the order
propagator, tracer provider, meter provider, logger provider, and after
each successful provider construction it first appends that provider's
teardown function to the ordered registry and then installs the
provider as the process-wide default for its kind, before attempting
the next construction. -/
theorem C7_construction_order (c : Ctors)
    (hT : c.newTracerProvider.err = []) (hM : c.newMeterProvider.err = [])
    (hL : c.newLoggerProvider.err = []) :
    (setupOTelSDK c).events =
      [.mkPropagator, .setTextMapPropagator,
       .ctorCall .tracer, .registerTeardown .tracer, .installProvider .tracer,
       .ctorCall .meter, .registerTeardown .meter, .installProvider .meter,
       .ctorCall .logger, .registerTeardown .logger, .installProvider .logger] ∧
    (setupOTelSDK c).registry =
      [⟨.tracer, c.newTracerProvider.tdErr⟩,
       ⟨.meter, c.newMeterProvider.tdErr⟩,
       ⟨.logger, c.newLoggerProvider.tdErr⟩] := by
  rw [setup_eq_of_all_ok c hT hM hL]
  exact ⟨rfl, rfl⟩

/-- C7 witness: instantiated at all-successful constructor outcomes. -/
theorem C7_construction_order_witness :
    ctorsAllOk.newTracerProvider.err = [] ∧
    ctorsAllOk.newMeterProvider.err = [] ∧
    ctorsAllOk.newLoggerProvider.err = [] ∧
    ((setupOTelSDK ctorsAllOk).events =
      [.mkPropagator, .setTextMapPropagator,
       .ctorCall .tracer, .registerTeardown .tracer, .installProvider .tracer,
       .ctorCall .meter, .registerTeardown .meter, .installProvider .meter,
       .ctorCall .logger, .registerTeardown .logger, .installProvider .logger] ∧
     (setupOTelSDK ctorsAllOk).registry =
      [⟨.tracer, ctorsAllOk.newTracerProvider.tdErr⟩,
       ⟨.meter, ctorsAllOk.newMeterProvider.tdErr⟩,
       ⟨.logger, ctorsAllOk.newLoggerProvider.tdErr⟩]) :=
  ⟨rfl, rfl, rfl, C7_construction_order ctorsAllOk rfl rfl rfl⟩

/-- C8 counterexample: at a concrete input where the interrupt wins the
race after a fully successful setup, `run`'s graceful server shutdown
is performed with `context.Background()`, which carries no deadline —
so the shutdown that follows the interrupt is not bounded by a deadline
context, contrary to the claim. -/
theorem C8_counterexample :
    (run ctorsAllOk .interrupt []).events =
      [.setupCall, .listenAndServe, .stopSignals,
       .srvShutdownCall .background, .otelShutdownCall .background] ∧
    GoCtx.hasDeadline GoCtx.background = false := by
  constructor <;> rfl

/-- C8 (amended): When the first interrupt signal wins the race against
the server-error channel in run (after a successful setup), run stops
signal notification and performs the graceful server shutdown with
context.Background() — a context carrying no deadline, so the wait is
unbounded rather than bounded by a configured grace deadline — and run
returns without the server-error path firing. -/
theorem C8_interrupt_graceful_shutdown (c : Ctors) (sde : Err)
    (h : (setupOTelSDK c).err = []) :
    (run c .interrupt sde).events =
      [.setupCall, .listenAndServe, .stopSignals,
       .srvShutdownCall .background, .otelShutdownCall .background] ∧
    GoCtx.hasDeadline GoCtx.background = false ∧
    RunEvent.recvServerError ∉ (run c .interrupt sde).events := by
  simp only [run, h, if_pos]
  refine ⟨trivial, rfl, ?_⟩
  simp

/-- C8 witness: instantiated at all-successful constructor outcomes. -/
theorem C8_interrupt_graceful_shutdown_witness :
    (setupOTelSDK ctorsAllOk).err = [] ∧
    ((run ctorsAllOk .interrupt [7]).events =
      [.setupCall, .listenAndServe, .stopSignals,
       .srvShutdownCall .background, .otelShutdownCall .background] ∧
     GoCtx.hasDeadline GoCtx.background = false ∧
     RunEvent.recvServerError ∉ (run ctorsAllOk .interrupt [7]).events) :=
  ⟨rfl, C8_interrupt_graceful_shutdown ctorsAllOk [7] rfl⟩

/-- C9: If the HTTP server fails to start (the server-error channel
resolves first), run returns an error that surfaces that startup error
directly and is joined with any error produced by the telemetry
shutdown function invoked in the deferred cleanup; no error from either
source is dropped. -/
theorem C9_server_error_joined (c : Ctors) (e sde : Err)
    (h : (setupOTelSDK c).err = []) :
    (run c (.serverError e) sde).err =
      errJoin e (shutdown (setupOTelSDK c).registry).err ∧
    (∀ x ∈ e, x ∈ (run c (.serverError e) sde).err) ∧
    (∀ x ∈ (shutdown (setupOTelSDK c).registry).err,
       x ∈ (run c (.serverError e) sde).err) := by
  simp only [run, h, if_pos]
  refine ⟨trivial, ?_, ?_⟩ <;> intro x hx <;> simp [errJoin, hx]

/-- C9 witness: instantiated at all-successful constructor outcomes and
a concrete server startup error. -/
theorem C9_server_error_joined_witness :
    (setupOTelSDK ctorsAllOk).err = [] ∧
    ((run ctorsAllOk (.serverError [50]) []).err =
       errJoin [50] (shutdown (setupOTelSDK ctorsAllOk).registry).err ∧
     (∀ x ∈ ([50] : Err), x ∈ (run ctorsAllOk (.serverError [50]) []).err) ∧
     (∀ x ∈ (shutdown (setupOTelSDK ctorsAllOk).registry).err,
        x ∈ (run ctorsAllOk (.serverError [50]) []).err)) :=
  ⟨rfl, C9_server_error_joined ctorsAllOk [50] [] rfl⟩

/-- C10: Even when setupOTelSDK returns with a construction error, the
composite text-map propagator installed at the start of setup remains
the process-wide default: the propagator registration contributes no
teardown callback (the two propagator events precede every provider
constructor call and registration) and is never rolled back by the
failure-path cleanup, while all successfully constructed providers are
torn down (each exactly once). -/
theorem C10_propagator_survives_failure (c : Ctors)
    (h : ¬ (c.newTracerProvider.err = [] ∧ c.newMeterProvider.err = [] ∧
            c.newLoggerProvider.err = [])) :
    (setupOTelSDK c).globals.textMapPropagator = some newPropagator ∧
    (setupOTelSDK c).events.take 2 =
      [Event.mkPropagator, Event.setTextMapPropagator] ∧
    (∀ k : Kind,
       (∀ k' ∈ priorKinds k, (ctorOf c k').err = []) →
       (ctorOf c k).err = [] →
       (setupOTelSDK c).events.count (Event.teardownCall k) = 1) := by
  by_cases hT : c.newTracerProvider.err = []
  · by_cases hM : c.newMeterProvider.err = []
    · by_cases hL : c.newLoggerProvider.err = []
      · exact absurd ⟨hT, hM, hL⟩ h
      · rw [setup_eq_of_logger_fail c hT hM hL]
        refine ⟨rfl, rfl, ?_⟩
        intro k hk hkd
        cases k with
        | tracer => rfl
        | meter => rfl
        | logger => exact absurd hkd hL
    · rw [setup_eq_of_meter_fail c hT hM]
      refine ⟨rfl, rfl, ?_⟩
      intro k hk hkd
      cases k with
      | tracer => rfl
      | meter => exact absurd hkd hM
      | logger => exact absurd (hk .meter (by simp [priorKinds])) hM
  · rw [setup_eq_of_tracer_fail c hT]
    refine ⟨rfl, rfl, ?_⟩
    intro k hk hkd
    cases k with
    | tracer => exact absurd hkd hT
    | meter => exact absurd (hk .tracer (by simp [priorKinds])) hT
    | logger => exact absurd (hk .tracer (by simp [priorKinds])) hT

/-- C10 witness: instantiated at constructor outcomes where the meter
provider fails. -/
theorem C10_propagator_survives_failure_witness :
    ¬ (ctorsMeterFails.newTracerProvider.err = [] ∧
       ctorsMeterFails.newMeterProvider.err = [] ∧
       ctorsMeterFails.newLoggerProvider.err = []) ∧
    ((setupOTelSDK ctorsMeterFails).globals.textMapPropagator = some newPropagator ∧
     (setupOTelSDK ctorsMeterFails).events.take 2 =
       [Event.mkPropagator, Event.setTextMapPropagator] ∧
     (∀ k : Kind,
        (∀ k' ∈ priorKinds k, (ctorOf ctorsMeterFails k').err = []) →
        (ctorOf ctorsMeterFails k).err = [] →
        (setupOTelSDK ctorsMeterFails).events.count (Event.teardownCall k) = 1)) :=
  ⟨by decide, C10_propagator_survives_failure ctorsMeterFails (by decide)⟩

end OtelTutorial
